import Mathlib

/-!
Shallow embedding of the area-extraction and configuration-classification
core of `src/app.py` (`extract_area_logic`, `determine_config`, and the
per-row column derivation at lines 148–152).

Modelling conventions:
* Python floats are modelled as exact rationals (`ℚ`); `round(x, 3)` is
  modelled as decimal half-to-even rounding at three digits.  Every value
  arising in the concrete scenarios below is far from a rounding tie and
  from a binary-representation boundary, so the exact-rational results
  coincide with the IEEE-double results of the source.
* Strings are lists of Unicode scalar values (`List Char`).
* A missing (`pd.isna`) description is `none`.
* The regex `(\d+\.?\d*)\s*m_unit` is embedded as an explicit left-to-right
  scan; greedy matching of the optional parts never needs backtracking for
  this pattern (no later sub-pattern can consume a digit or a dot), so
  maximal-munch matching is faithful to the Python engine.
-/

abbrev Text := List Char

/-- Whitespace as recognised by `str.split()` and regex `\s` (the ASCII
whitespace characters that can occur in the data). -/
def isSpaceChar (c : Char) : Bool :=
  c = ' ' || c = '\t' || c = '\n' || c = '\r' || c = '\x0b' || c = '\x0c'

/-- ASCII lowercasing, the action of `str.lower()` on the two scripts in the
data (Devanagari is caseless). -/
def lowerChar (c : Char) : Char :=
  if 'A' ≤ c ∧ c ≤ 'Z' then Char.ofNat (c.toNat + 32) else c

def lowerText (l : Text) : Text := l.map lowerChar

/-- Decimal digits: ASCII and Devanagari (Python `\d` matches Unicode
decimal digits and `float()` accepts them). -/
def isDigitChar (c : Char) : Bool := c.isDigit || ('०' ≤ c && c ≤ '९')

def digitVal (c : Char) : Nat :=
  if c.isDigit then c.toNat - 48 else c.toNat - 0x966

def digitsToNat (l : Text) : Nat := l.foldl (fun n c => 10 * n + digitVal c) 0

/-!
Computable arithmetic on `ℚ`.  The standard field operations of `ℚ` are
marked irreducible in the library and therefore cannot be evaluated inside
kernel-checked proofs, so the embedding computes with the following
operations, each proved equal to the corresponding standard operation
(`qadd_eq`, `qsub_eq`, `qmul_eq`, `qinv_eq`, `qdiv_eq`, `qsum_eq_sum`
below).
-/

def qadd (a b : ℚ) : ℚ :=
  mkRat (a.num * (b.den : ℤ) + b.num * (a.den : ℤ)) (a.den * b.den)

def qsub (a b : ℚ) : ℚ :=
  mkRat (a.num * (b.den : ℤ) - b.num * (a.den : ℤ)) (a.den * b.den)

def qmul (a b : ℚ) : ℚ := mkRat (a.num * b.num) (a.den * b.den)

def qinv (a : ℚ) : ℚ := mkRat (Int.sign a.num * (a.den : ℤ)) a.num.natAbs

def qdiv (a b : ℚ) : ℚ := qmul a (qinv b)

def qsum : List ℚ → ℚ
  | [] => 0
  | x :: xs => qadd x (qsum xs)

/-- `float()` applied to a numeral captured by `\d+\.?\d*`: the integer
part plus the fractional digits over the matching power of ten. -/
def parseNum (t : Text) : ℚ :=
  let ip := t.takeWhile (fun c => c ≠ '.')
  let fp := (t.dropWhile (fun c => c ≠ '.')).drop 1
  qadd (digitsToNat ip : ℚ) (qdiv (digitsToNat fp : ℚ) ((10 ^ fp.length : ℕ) : ℚ))

/-- Split on whitespace runs, dropping empty pieces: Python `str.split()`. -/
def wordsOf (l : Text) : List Text :=
  (l.foldr
    (fun c acc =>
      if isSpaceChar c then [] :: acc
      else
        match acc with
        | [] => [[c]]
        | w :: ws => (c :: w) :: ws)
    []).filter (fun w => ¬ w.isEmpty)

def joinSp : List Text → Text
  | [] => []
  | [w] => w
  | w :: ws => w ++ ' ' :: joinSp ws

/-- `" ".join(str(text).split())`. -/
def normWs (l : Text) : Text := joinSp (wordsOf l)

/-- Python replace of space-comma by a bare comma: left-to-right,
non-overlapping. -/
def replSpComma : Text → Text
  | ' ' :: ',' :: rest => ',' :: replSpComma rest
  | c :: rest => c :: replSpComma rest
  | [] => []

/-- Python replace of comma-space by a bare comma: left-to-right,
non-overlapping. -/
def replCommaSp : Text → Text
  | ',' :: ' ' :: rest => ',' :: replCommaSp rest
  | c :: rest => c :: replCommaSp rest
  | [] => []

/-- Drop a literal prefix, if present. -/
def stripPfx (pat l : Text) : Option Text :=
  if pat.isPrefixOf l then some (l.drop pat.length) else none

/-- Case-insensitive literal prefix (pattern supplied in lowercase),
for the `re.IGNORECASE` flag. -/
def stripPfxCI : Text → Text → Option Text
  | [], l => some l
  | _ :: _, [] => none
  | p :: ps, c :: cs => if lowerChar c = p then stripPfxCI ps cs else none

/-- Greedy `\.?`. -/
def optDot : Text → Text
  | '.' :: rest => rest
  | l => l

/-- Greedy `\s*`. -/
def wsStar (l : Text) : Text := l.dropWhile isSpaceChar

/-- First alternative of `m_unit`: `चौ\.?\s*मी\.?`. -/
def matchUnitDev1 (l : Text) : Option Text := do
  let r1 ← stripPfx ("चौ".data) l
  let r2 ← stripPfx ("मी".data) (wsStar (optDot r1))
  pure (optDot r2)

/-- Second alternative of `m_unit`: `चौरस\s*मी[टत]र`. -/
def matchUnitDev2 (l : Text) : Option Text := do
  let r1 ← stripPfx ("चौरस".data) l
  let r2 ← stripPfx ("मी".data) (wsStar r1)
  match r2 with
  | c :: r3 => if c = 'ट' ∨ c = 'त' then stripPfx ("र".data) r3 else none
  | [] => none

/-- Third alternative of `m_unit`: `sq\.?\s*m(?:tr)?\.?`, case-insensitive. -/
def matchUnitEng (l : Text) : Option Text := do
  let r1 ← stripPfxCI ("sq".data) l
  let r2 ← stripPfxCI ("m".data) (wsStar (optDot r1))
  let r3 :=
    match stripPfxCI ("tr".data) r2 with
    | some r => r
    | none => r2
  pure (optDot r3)

/-- The metric-unit pattern `m_unit` (src/app.py line 72), alternatives
tried in source order as the Python engine does. -/
def matchMUnit (l : Text) : Option Text :=
  (matchUnitDev1 l).orElse fun _ => (matchUnitDev2 l).orElse fun _ => matchUnitEng l

/-- Attempt the full split pattern `(\d+\.?\d*)\s*m_unit` at the head of
`l`; on success return the captured numeral and the remainder after the
whole match. -/
def matchAt (l : Text) : Option (Text × Text) :=
  match l with
  | [] => none
  | c :: _ =>
    if isDigitChar c then
      let d1 := l.takeWhile isDigitChar
      let r1 := l.dropWhile isDigitChar
      let (numTok, r2) :=
        match r1 with
        | '.' :: r => (d1 ++ '.' :: r.takeWhile isDigitChar, r.dropWhile isDigitChar)
        | _ => (d1, r1)
      match matchMUnit (wsStar r2) with
      | some rest => some (numTok, rest)
      | none => none
    else none

/-- Left-to-right scan realising `re.split`: produces the segment list
`[seg0, cap1, seg1, cap2, …, segN]` with captured numerals at odd indices.
`fuel` bounds the recursion; `l.length + 1` always suffices because every
step consumes at least one character. -/
def scanSplit (fuel : Nat) (acc l : Text) : List Text :=
  match fuel, l with
  | _, [] => [acc.reverse]
  | 0, l => [acc.reverse ++ l]
  | fuel' + 1, c :: rest =>
    match matchAt (c :: rest) with
    | some (cap, after) => acc.reverse :: cap :: scanSplit fuel' [] after
    | none => scanSplit fuel' (c :: acc) rest

/-- The full `re.split` over the pattern `(\d+\.?\d*)\s*m_unit` with the
IGNORECASE flag (src/app.py line 75). -/
def m_split (l : Text) : List Text := scanSplit (l.length + 1) [] l

def parkingWords : List Text := ["पार्किंग".data, "पार्कींग".data, "parking".data]

/-- Contiguous-substring test, Python `w in context`. -/
def containsSub (pat : Text) : Text → Bool
  | [] => pat.isEmpty
  | c :: rest => pat.isPrefixOf (c :: rest) || containsSub pat rest

/-- `any(w in context for w in ["पार्किंग", "पार्कींग", "parking"])`. -/
def containsParking (ctx : Text) : Bool :=
  parkingWords.any (fun w => containsSub w ctx)

/-- The loop over the odd indices of `m_segments` (src/app.py lines 76–80):
keep `float(cap)` when `0 < val < 500` and no parking word occurs in the
lowered preceding segment. -/
def collectVals : List Text → List ℚ
  | seg :: cap :: rest =>
    let val := parseNum cap
    if 0 < val ∧ val < 500 ∧ containsParking (lowerText seg) = false then
      val :: collectVals rest
    else collectVals rest
  | _ => []

/-- Floor of a rational, computably (`den` is positive). -/
def qfloor (x : ℚ) : ℤ := Int.fdiv x.num (x.den : ℤ)

/-- Round half-to-even to an integer, the behaviour of Python `round`:
take the floor, then compare the fractional part with one half. -/
def roundHalfEven (x : ℚ) : ℤ :=
  let n := qfloor x
  let r := qsub x ((n : ℤ) : ℚ)
  if r < mkRat 1 2 then n
  else if mkRat 1 2 < r then n + 1
  else if n % 2 = 0 then n else n + 1

/-- Python `round(x, 3)` on the exact-rational model: round `1000 * x`
half-to-even and divide by `1000`. -/
def pyRound3 (x : ℚ) : ℚ := qdiv ((roundHalfEven (qmul 1000 x) : ℤ) : ℚ) 1000

/-- `extract_area_logic` (src/app.py lines 69–81).  Note that the source
also binds `f_unit` (an imperial-unit pattern) and `total_keywords` at
lines 73–74 but never uses either, so they contribute nothing to the
computation.  `none` models a `pd.isna` description. -/
def extract_area_logic (text : Option String) : ℚ :=
  match text with
  | none => 0
  | some s =>
    if s = "" then 0
    else
      let t := replCommaSp (replSpComma (normWs s.data))
      let vals := collectVals (m_split t)
      if vals = [] then 0 else pyRound3 (qsum vals)

/-- `determine_config` (src/app.py lines 83–85). -/
def determine_config (area t1 t2 t3 : ℚ) : String :=
  if area = 0 then "N/A"
  else if area < t1 then "1 BHK"
  else if area < t2 then "2 BHK"
  else if area < t3 then "3 BHK"
  else "4 BHK"

/-- Numeric order of the configuration bands, `"N/A"` below all of them. -/
def configBand (s : String) : ℕ :=
  if s = "N/A" then 0
  else if s = "1 BHK" then 1
  else if s = "2 BHK" then 2
  else if s = "3 BHK" then 3
  else 4

structure Row where
  description : Option String
  considerationValue : ℚ

structure DerivedRow where
  carpetSqm : ℚ
  carpetSqft : ℚ
  saleableArea : ℚ
  aprVal : ℚ
  configuration : String

/-- The guarded APR lambda (src/app.py line 151). -/
def aprCalc (cons sal : ℚ) : ℚ :=
  if 0 < sal then pyRound3 (qdiv cons sal) else 0

/-- The conversion constant of the source, `10.764` square feet per square
meter, as an exact rational. -/
def sqftPerSqm : ℚ := mkRat 10764 1000

/-- The per-row column derivation (src/app.py lines 148–152). -/
def processRow (loading t1 t2 t3 : ℚ) (r : Row) : DerivedRow :=
  let sqm := extract_area_logic r.description
  let sqft := pyRound3 (qmul sqm sqftPerSqm)
  let sal := pyRound3 (qmul sqft loading)
  { carpetSqm := sqm
    carpetSqft := sqft
    saleableArea := sal
    aprVal := aprCalc r.considerationValue sal
    configuration := determine_config sqft t1 t2 t3 }


/-! ### Bridging lemmas: the computable operations agree with the field
structure of `ℚ` -/

theorem qadd_eq (a b : ℚ) : qadd a b = a + b := by
  have ha : ((a.den : ℚ)) ≠ 0 := Nat.cast_ne_zero.mpr a.den_nz
  have hb : ((b.den : ℚ)) ≠ 0 := Nat.cast_ne_zero.mpr b.den_nz
  rw [qadd, Rat.mkRat_eq_div]
  conv_rhs => rw [← Rat.num_div_den a, ← Rat.num_div_den b]
  rw [div_add_div _ _ ha hb]
  push_cast
  ring_nf

theorem qsub_eq (a b : ℚ) : qsub a b = a - b := by
  have ha : ((a.den : ℚ)) ≠ 0 := Nat.cast_ne_zero.mpr a.den_nz
  have hb : ((b.den : ℚ)) ≠ 0 := Nat.cast_ne_zero.mpr b.den_nz
  rw [qsub, Rat.mkRat_eq_div]
  conv_rhs => rw [← Rat.num_div_den a, ← Rat.num_div_den b]
  rw [div_sub_div _ _ ha hb]
  push_cast
  ring_nf

theorem qmul_eq (a b : ℚ) : qmul a b = a * b := by
  rw [qmul, Rat.mkRat_eq_div]
  conv_rhs => rw [← Rat.num_div_den a, ← Rat.num_div_den b]
  rw [div_mul_div_comm]
  push_cast
  ring_nf

theorem qinv_eq (a : ℚ) : qinv a = a⁻¹ := by
  rw [qinv]
  conv_rhs => rw [← Rat.num_div_den a]
  rw [inv_div]
  rcases lt_trichotomy a.num 0 with h | h | h
  · rw [Int.sign_eq_neg_one_iff_neg.mpr h, Rat.mkRat_eq_div]
    have habs : ((a.num.natAbs : ℕ) : ℚ) = -((a.num : ℤ) : ℚ) := by
      rw [Int.cast_natAbs, Int.cast_abs]
      exact abs_of_neg (by exact_mod_cast h)
    rw [habs]
    push_cast
    rw [neg_one_mul, neg_div_neg_eq]
  · rw [h, Rat.mkRat_eq_div]
    simp
  · rw [Int.sign_eq_one_iff_pos.mpr h, Rat.mkRat_eq_div]
    have habs : ((a.num.natAbs : ℕ) : ℚ) = ((a.num : ℤ) : ℚ) := by
      rw [Int.cast_natAbs, Int.cast_abs]
      exact abs_of_pos (by exact_mod_cast h)
    rw [habs]
    push_cast
    rw [one_mul]

theorem qdiv_eq (a b : ℚ) : qdiv a b = a / b := by
  rw [qdiv, qmul_eq, qinv_eq, div_eq_mul_inv]

theorem qsum_eq_sum : ∀ l : List ℚ, qsum l = l.sum
  | [] => rfl
  | x :: xs => by rw [qsum, qadd_eq, qsum_eq_sum xs, List.sum_cons]

/-- The conversion constant is exactly `10.764`. -/
theorem sqftPerSqm_eq : sqftPerSqm = (10.764 : ℚ) := by
  rw [sqftPerSqm, Rat.mkRat_eq_div]
  norm_num

/-! ### Shared lemmas -/

theorem roundHalfEven_nonneg (x : ℚ) (h : 0 ≤ x) : 0 ≤ roundHalfEven x := by
  simp only [roundHalfEven, qfloor]
  have hnum : 0 ≤ x.num := Rat.num_nonneg.mpr h
  have hfd : 0 ≤ Int.fdiv x.num (x.den : ℤ) :=
    Int.fdiv_nonneg hnum (by exact_mod_cast Nat.zero_le x.den)
  split_ifs <;> omega

theorem pyRound3_nonneg (x : ℚ) (h : 0 ≤ x) : 0 ≤ pyRound3 x := by
  rw [pyRound3, qdiv_eq]
  have h0 : 0 ≤ qmul 1000 x := by
    rw [qmul_eq]
    positivity
  have h1 : 0 ≤ roundHalfEven (qmul 1000 x) := roundHalfEven_nonneg _ h0
  have h2 : (0 : ℚ) ≤ ((roundHalfEven (qmul 1000 x) : ℤ) : ℚ) := by exact_mod_cast h1
  exact div_nonneg h2 (by norm_num)

theorem collectVals_sum_nonneg : ∀ segs : List Text, 0 ≤ (collectVals segs).sum
  | [] => by simp [collectVals]
  | [_] => by simp [collectVals]
  | seg :: cap :: rest => by
    have ih := collectVals_sum_nonneg rest
    by_cases h : 0 < parseNum cap ∧ parseNum cap < 500 ∧
        containsParking (lowerText seg) = false
    · have e : collectVals (seg :: cap :: rest) = parseNum cap :: collectVals rest := by
        simp only [collectVals]
        rw [if_pos h]
      rw [e, List.sum_cons]
      linarith [h.1]
    · have e : collectVals (seg :: cap :: rest) = collectVals rest := by
        simp only [collectVals]
        rw [if_neg h]
      rw [e]
      exact ih

/-! ### Claim theorems -/

set_option maxRecDepth 8000

/-- C1: the claim asserts that for itemized components followed by a
restated total, extraction returns the total alone (72.0 for the named
description).  Counterexample: the code keeps all three retained figures
and returns 144.0 — no total-vs-sum deduplication exists in the source. -/
theorem C1_counterexample :
    extract_area_logic (some ("35 sq.mt + 37 sq.mt = 72 sq.mt total area")) = 144 ∧
    (144 : ℚ) ≠ 72 := by
  constructor
  · decide
  · norm_num

/-- C1 (amended): extraction returns the sum of every retained value — the
itemized components and the restated total together — because the source
never compares the largest retained value with the sum of the others. -/
theorem C1_sum_of_components :
    extract_area_logic (some ("35 sq.mt + 37 sq.mt = 72 sq.mt total area")) =
      35 + 37 + 72 := by
  rw [show (35 : ℚ) + 37 + 72 = 144 by norm_num]
  decide

/-- C2: the claim asserts an imperial-unit fallback with conversion by
10.764.  Counterexample: a description whose only figure carries an
imperial unit yields 0.0, not the converted value 6.689 that the claimed
fallback would produce. -/
theorem C2_counterexample :
    extract_area_logic (some ("flat area 72 sq.ft")) = 0 ∧
    pyRound3 ((72 : ℚ) / 10.764) ≠ 0 := by
  constructor
  · decide
  · rw [show (72 : ℚ) / 10.764 = qdiv 72 (mkRat 10764 1000) by
      rw [qdiv_eq, Rat.mkRat_eq_div]; norm_num]
    decide

/-- C2 (amended): when no metric match survives, extraction returns 0.0
regardless of imperial-unit occurrences; the imperial pattern `f_unit` is
bound at src/app.py line 73 but never used. -/
theorem C2_imperial_ignored :
    extract_area_logic (some ("flat area 72 sq.ft")) = 0 ∧
    extract_area_logic (some ("flat 45 sq.ft and 72 sq.ft total")) = 0 :=
  ⟨by decide, by decide⟩

/-- C3: the claim asserts that a description containing "45 sq.mt parking"
and "72 sq.mt flat" extracts to 72.0.  Counterexample: the word parking
follows its own figure, so it lands in the window preceding the NEXT
figure; the code therefore discards 72 and keeps 45, returning 45.0. -/
theorem C3_counterexample :
    extract_area_logic (some ("45 sq.mt parking 72 sq.mt flat")) = 45 ∧
    (45 : ℚ) ≠ 72 := by
  constructor
  · decide
  · norm_num

/-- C3 (amended): a (number, metric-unit) occurrence is discarded exactly
when a parking term occurs in the text window preceding it (the segment
since the previous match); when the parking term precedes its figure, the
parking figure is dropped and the flat figure 72.0 is returned. -/
theorem C3_parking_window :
    (∀ seg cap rest, containsParking (lowerText seg) = true →
      collectVals (seg :: cap :: rest) = collectVals rest) ∧
    extract_area_logic (some ("parking 45 sq.mt flat 72 sq.mt")) = 72 := by
  constructor
  · intro seg cap rest h
    have hne : ¬ (0 < parseNum cap ∧ parseNum cap < 500 ∧
        containsParking (lowerText seg) = false) := by
      rintro ⟨-, -, h3⟩
      rw [h] at h3
      exact Bool.noConfusion h3
    simp only [collectVals]
    rw [if_neg hne]
  · decide

/-- C3 witness: the window rule applied at a concrete segment containing a
parking term. -/
theorem C3_parking_window_witness :
    collectVals (("parking").data :: ("45").data :: []) = collectVals [] :=
  C3_parking_window.1 (("parking").data) (("45").data) [] (by decide)

/-- C4: the claim asserts that an explicit total-area phrase followed by a
plausible figure is returned directly, ignoring itemized figures.
Counterexample: with the phrase present the code still sums everything,
returning 144.0 instead of 72.0. -/
theorem C4_counterexample :
    extract_area_logic
      (some ("total area 72 sq.mt with 35 sq.mt and 37 sq.mt")) = 144 ∧
    (144 : ℚ) ≠ 72 := by
  constructor
  · decide
  · norm_num

/-- C4 (amended): `total_keywords` is bound at src/app.py line 74 but never
used, so the figure after the total-area phrase is treated like any other
retained value and everything is summed. -/
theorem C4_total_keyword_ignored :
    extract_area_logic
      (some ("total area 72 sq.mt with 35 sq.mt and 37 sq.mt")) =
      72 + 35 + 37 := by
  rw [show (72 : ℚ) + 35 + 37 = 144 by norm_num]
  decide

/-- The input row of the end-to-end scenario of C5. -/
def c5row : DerivedRow :=
  processRow 1.35 600 850 1100
    ⟨some ("सदनिका क्षेत्रफळ 55.74 चौ. मी."), 6000000⟩

/-- The loading factor written with the computable constructor, so the row
can be evaluated inside proofs. -/
theorem c5row_eval :
    c5row = processRow (mkRat 27 20) 600 850 1100
      ⟨some ("सदनिका क्षेत्रफळ 55.74 चौ. मी."), 6000000⟩ := by
  rw [c5row, show (1.35 : ℚ) = mkRat 27 20 by rw [Rat.mkRat_eq_div]; norm_num]

/-- C5: the claim gives carpetAreaSqft ≈ 599.87, saleableArea ≈ 809.82 and
ratio ≈ 7409.3.  Counterexample: the pipeline computes 599.985, 809.98 and
7407.59 — each further from the claimed value than the precision at which
the claim states it (0.05 for the areas, 1 for the ratio). -/
theorem C5_counterexample :
    c5row.carpetSqm = 55.74 ∧
    (599.87 : ℚ) + 1 / 20 < c5row.carpetSqft ∧
    (809.82 : ℚ) + 1 / 20 < c5row.saleableArea ∧
    c5row.aprVal + 1 < 7409.3 := by
  have hm : c5row.carpetSqm = mkRat 2787 50 := by rw [c5row_eval]; decide
  have hf : c5row.carpetSqft = mkRat 119997 200 := by rw [c5row_eval]; decide
  have hs : c5row.saleableArea = mkRat 40499 50 := by rw [c5row_eval]; decide
  have ha : c5row.aprVal = mkRat 740759 100 := by rw [c5row_eval]; decide
  refine ⟨?_, ?_, ?_, ?_⟩
  · rw [hm, Rat.mkRat_eq_div]; norm_num
  · rw [hf, Rat.mkRat_eq_div]; norm_num
  · rw [hs, Rat.mkRat_eq_div]; norm_num
  · rw [ha, Rat.mkRat_eq_div]; norm_num

/-- C5 (amended): for the scenario row with loading factor 1.35 and
thresholds (600, 850, 1100) the pipeline yields carpetAreaSqm = 55.74,
carpetAreaSqft = 599.985, saleableArea = 809.98, configuration "1 BHK"
and ratio = 7407.59. -/
theorem C5_end_to_end :
    c5row.carpetSqm = 55.74 ∧
    c5row.carpetSqft = 599.985 ∧
    c5row.saleableArea = 809.98 ∧
    c5row.configuration = ("1 BHK") ∧
    c5row.aprVal = 7407.59 := by
  refine ⟨?_, ?_, ?_, by rw [c5row_eval]; decide, ?_⟩
  · rw [c5row_eval, show (55.74 : ℚ) = mkRat 2787 50 by rw [Rat.mkRat_eq_div]; norm_num]
    decide
  · rw [c5row_eval, show (599.985 : ℚ) = mkRat 119997 200 by
      rw [Rat.mkRat_eq_div]; norm_num]
    decide
  · rw [c5row_eval, show (809.98 : ℚ) = mkRat 40499 50 by
      rw [Rat.mkRat_eq_div]; norm_num]
    decide
  · rw [c5row_eval, show (7407.59 : ℚ) = mkRat 740759 100 by
      rw [Rat.mkRat_eq_div]; norm_num]
    decide

/-- C6: the claim quantifies over ascending thresholds t1 < t2 < t3 only.
Counterexample: the ascending triple (0, 1, 2) is admissible, yet
classify(t1, t1, t2, t3) = classify(0, 0, 1, 2) = "N/A", not "2 BHK",
because the zero-area sentinel takes precedence. -/
theorem C6_counterexample :
    (0 : ℚ) < 1 ∧ (1 : ℚ) < 2 ∧
    determine_config 0 0 1 2 ≠ ("2 BHK") ∧
    determine_config 0 0 1 2 = ("N/A") := by
  refine ⟨by norm_num, by norm_num, by decide, by decide⟩

/-- C6 (amended): for ascending thresholds with 0 < t1 < t2 < t3, the
boundaries are half-open on the upper threshold: classify(0) = "N/A" and
an area exactly equal to t1 falls in the next band up, "2 BHK". -/
theorem C6_boundary :
    ∀ t1 t2 t3 : ℚ, 0 < t1 → t1 < t2 → t2 < t3 →
      determine_config 0 t1 t2 t3 = ("N/A") ∧
      determine_config t1 t1 t2 t3 = ("2 BHK") := by
  intro t1 t2 t3 h0 h12 h23
  constructor
  · simp [determine_config]
  · simp only [determine_config]
    rw [if_neg (ne_of_gt h0), if_neg (lt_irrefl t1), if_pos h12]

/-- C6 witness: the boundary behaviour at the default thresholds. -/
theorem C6_boundary_witness :
    determine_config 0 600 850 1100 = ("N/A") ∧
    determine_config 600 600 850 1100 = ("2 BHK") :=
  C6_boundary 600 850 1100 (by norm_num) (by norm_num) (by norm_num)

/-- C7: for ascending thresholds the classifier is non-decreasing in the
area on positive areas, with the band order
"1 BHK" < "2 BHK" < "3 BHK" < "4 BHK"; the zero-area "N/A" case is
excluded by the positivity hypothesis. -/
theorem C7_monotone :
    ∀ t1 t2 t3 a b : ℚ, t1 < t2 → t2 < t3 → 0 < a → a ≤ b →
      configBand (determine_config a t1 t2 t3) ≤
        configBand (determine_config b t1 t2 t3) := by
  intro t1 t2 t3 a b h12 h23 ha hab
  have ha0 : ¬ a = 0 := ne_of_gt ha
  have hb0 : ¬ b = 0 := ne_of_gt (lt_of_lt_of_le ha hab)
  simp only [determine_config, if_neg ha0, if_neg hb0]
  split_ifs <;> first
    | decide
    | (exfalso; linarith)

/-- C7 witness: monotonicity applied at a concrete pair of areas. -/
theorem C7_monotone_witness :
    configBand (determine_config 100 600 850 1100) ≤
      configBand (determine_config 700 600 850 1100) :=
  C7_monotone 600 850 1100 100 700 (by norm_num) (by norm_num) (by norm_num)
    (by norm_num)

/-- C8: the per-record ratio is guarded — whenever the computed saleable
area is zero the ratio is 0; the computation is a total function, so no
error can be raised for any saleable area. -/
theorem C8_ratio_guard :
    ∀ (loading t1 t2 t3 : ℚ) (r : Row),
      (processRow loading t1 t2 t3 r).saleableArea = 0 →
      (processRow loading t1 t2 t3 r).aprVal = 0 := by
  intro loading t1 t2 t3 r h
  simp only [processRow, aprCalc] at h ⊢
  rw [h]
  simp

/-- C8 witness: a row with no description has saleable area 0 and ratio 0. -/
theorem C8_ratio_guard_witness :
    (processRow (mkRat 27 20) 600 850 1100 ⟨none, 5⟩).saleableArea = 0 ∧
    (processRow (mkRat 27 20) 600 850 1100 ⟨none, 5⟩).aprVal = 0 :=
  ⟨by decide, C8_ratio_guard (mkRat 27 20) 600 850 1100 ⟨none, 5⟩ (by decide)⟩

/-- C9: extraction always returns a non-negative rational (the model is
exact rational arithmetic, so the value is finite by construction), and
both a missing and an empty description give the sentinel 0.0. -/
theorem C9_nonneg_sentinel :
    (∀ text : Option String, 0 ≤ extract_area_logic text) ∧
    extract_area_logic none = 0 ∧ extract_area_logic (some ("")) = 0 := by
  refine ⟨?_, by decide, by decide⟩
  intro text
  cases text with
  | none => norm_num [extract_area_logic]
  | some s =>
    simp only [extract_area_logic]
    split_ifs with h1 h2
    · exact le_refl 0
    · exact le_refl 0
    · refine pyRound3_nonneg _ ?_
      rw [qsum_eq_sum]
      exact collectVals_sum_nonneg _

/-- C10: for a strictly negative area below t1 the classifier returns
"1 BHK", not the "N/A" sentinel — "N/A" is produced only at area zero. -/
theorem C10_negative_area :
    ∀ a t1 t2 t3 : ℚ, a < 0 → a < t1 →
      determine_config a t1 t2 t3 = ("1 BHK") ∧
      determine_config a t1 t2 t3 ≠ ("N/A") := by
  intro a t1 t2 t3 ha h1
  have he : determine_config a t1 t2 t3 = ("1 BHK") := by
    simp only [determine_config]
    rw [if_neg (ne_of_lt ha), if_pos h1]
  refine ⟨he, ?_⟩
  rw [he]
  decide

/-- C10 witness: a negative area below the first threshold. -/
theorem C10_negative_area_witness :
    determine_config (-5) 600 850 1100 = ("1 BHK") ∧
    determine_config (-5) 600 850 1100 ≠ ("N/A") :=
  C10_negative_area (-5) 600 850 1100 (by norm_num) (by norm_num)
